import Mathlib

/-!
Shallow embedding of the bounding-box label layout engine of
src/detection_api/static/js/script.js (functions drawBoundingBoxes,
positionLabelsIntelligently, avoidLabelCollisions, isColliding and
adjustLabelPosition), together with the CSS facts it depends on.

Geometry is modelled over the rationals.  Browser-determined quantities
that are inputs to the algorithm but not computed by it (the rendered
pixel width and height of each label text, and the pixel width and
height of the image container) are explicit parameters.  The 3px CSS
border of the box element is abstracted away: it offsets every label
anchor by the same constant and no claim depends on it.  The deferred
callback that adjustLabelPosition schedules with a zero timeout runs
after the synchronous collision loop finishes; the embedding runs all
deferred callbacks, in scheduling order, after the loop.
-/

/-- A DOMRect as stored per element: left, top, width, height. -/
structure Rect where
  left : ℚ
  top : ℚ
  width : ℚ
  height : ℚ
deriving DecidableEq

instance : Inhabited Rect := ⟨⟨0, 0, 0, 0⟩⟩

/-- Right edge of a DOMRect, as read by getBoundingClientRect. -/
def Rect.right (r : Rect) : ℚ := r.left + r.width

/-- Bottom edge of a DOMRect. -/
def Rect.bottom (r : Rect) : ℚ := r.top + r.height

/-- Two rectangles share interior area. -/
def overlaps (r1 r2 : Rect) : Prop :=
  r1.left < r2.right ∧ r2.left < r1.right ∧ r1.top < r2.bottom ∧ r2.top < r1.bottom

instance (r1 r2 : Rect) : Decidable (overlaps r1 r2) := by
  unfold overlaps; infer_instance

/-- A bounding box in the fixed 512-unit normalized coordinate space. -/
structure BBox where
  x1 : ℚ
  y1 : ℚ
  x2 : ℚ
  y2 : ℚ
deriving DecidableEq

/-- One detection as consumed by drawBoundingBoxes: the bounding box in the
fixed 512-unit space, plus the rendered size of the label text, an input
determined by the browser rather than computed by the code.  Type tag and
category name do not affect the geometry and are omitted. -/
structure Detection where
  bbox : BBox
  labelW : ℚ
  labelH : ℚ
deriving DecidableEq

/-- leftPercent of drawBoundingBoxes: (bbox.x1 / 512) * 100. -/
def leftPercent (b : BBox) : ℚ := b.x1 / 512 * 100

/-- topPercent of drawBoundingBoxes: (bbox.y1 / 512) * 100. -/
def topPercent (b : BBox) : ℚ := b.y1 / 512 * 100

/-- widthPercent of drawBoundingBoxes: ((bbox.x2 - bbox.x1) / 512) * 100. -/
def widthPercent (b : BBox) : ℚ := (b.x2 - b.x1) / 512 * 100

/-- heightPercent of drawBoundingBoxes: ((bbox.y2 - bbox.y1) / 512) * 100. -/
def heightPercent (b : BBox) : ℚ := (b.y2 - b.y1) / 512 * 100

/-- The record drawBoundingBoxes builds per detection: the four percentages it
assigns to the box element style, plus the label text dimensions. -/
structure BBoxElement where
  leftPercent : ℚ
  topPercent : ℚ
  widthPercent : ℚ
  heightPercent : ℚ
  labelW : ℚ
  labelH : ℚ
deriving DecidableEq

def mkBBoxElement (d : Detection) : BBoxElement :=
  ⟨leftPercent d.bbox, topPercent d.bbox, widthPercent d.bbox, heightPercent d.bbox,
   d.labelW, d.labelH⟩

/-- Client rect of the box element inside a container of width W and height H,
container origin taken as zero: percentage styles resolved against the
container dimensions. -/
def boxScreenRect (e : BBoxElement) (W H : ℚ) : Rect :=
  ⟨e.leftPercent / 100 * W, e.topPercent / 100 * H,
   e.widthPercent / 100 * W, e.heightPercent / 100 * H⟩

/-- isNearTop of positionLabelsIntelligently: topPercent < 15. -/
def BBoxElement.isNearTop (e : BBoxElement) : Bool := decide (e.topPercent < 15)

/-- isNearBottom of positionLabelsIntelligently: topPercent > 85. -/
def BBoxElement.isNearBottom (e : BBoxElement) : Bool := decide (e.topPercent > 85)

/-- isNearLeft of positionLabelsIntelligently: leftPercent < 10.  Computed by
the source but never used by it. -/
def BBoxElement.isNearLeft (e : BBoxElement) : Bool := decide (e.leftPercent < 10)

/-- isNearRight of positionLabelsIntelligently: leftPercent > 90. -/
def BBoxElement.isNearRight (e : BBoxElement) : Bool := decide (e.leftPercent > 90)

/-- The vertical style branch positionLabelsIntelligently selects. -/
inductive VPlace where
  | below
  | above
  | defaultAbove
deriving DecidableEq

/-- The horizontal style branch positionLabelsIntelligently selects. -/
inductive HPlace where
  | rightAlign
  | leftAlign
deriving DecidableEq

/-- Vertical branch: if isNearTop then below (top 100 percent, margin-top 2px)
else if isNearBottom then above (bottom 100 percent, margin-bottom 2px) else
the default (top -25px). -/
def vPlace (e : BBoxElement) : VPlace :=
  if e.isNearTop then .below else if e.isNearBottom then .above else .defaultAbove

/-- Horizontal branch: if isNearRight then right 0 else left 0. -/
def hPlace (e : BBoxElement) : HPlace :=
  if e.isNearRight then .rightAlign else .leftAlign

/-- Client rect of the label element as laid out by the styles that
positionLabelsIntelligently assigns, transform excluded.  below: label top at
box bottom plus the 2px top margin; above: label bottom at box top minus the
2px bottom margin; defaultAbove: label top at box top minus 25px.  rightAlign:
label right edge at box right edge; leftAlign: label left edge at box left
edge. -/
def labelBaseRect (e : BBoxElement) (W H : ℚ) : Rect :=
  let box := boxScreenRect e W H
  let t :=
    match vPlace e with
    | .below => box.top + box.height + 2
    | .above => box.top - 2 - e.labelH
    | .defaultAbove => box.top - 25
  let l :=
    match hPlace e with
    | .rightAlign => box.left + box.width - e.labelW
    | .leftAlign => box.left
  ⟨l, t, e.labelW, e.labelH⟩

/-- State of one label element: its laid-out rectangle plus the current CSS
translate offsets set through style.transform. -/
structure LabelState where
  base : Rect
  tx : ℚ
  ty : ℚ
deriving DecidableEq

instance : Inhabited LabelState := ⟨⟨default, 0, 0⟩⟩

/-- getBoundingClientRect of the label element: layout position shifted by the
current translate offsets. -/
def LabelState.rect (l : LabelState) : Rect :=
  ⟨l.base.left + l.tx, l.base.top + l.ty, l.base.width, l.base.height⟩

/-- positionLabelsIntelligently: assigns each label its placement styles; no
transform is set at this point. -/
def positionLabelsIntelligently (elems : List BBoxElement) (W H : ℚ) : List LabelState :=
  elems.map fun e => ⟨labelBaseRect e W H, 0, 0⟩

/-- isColliding of the source, margin 5: true unless one of the four
separation tests holds. -/
def isColliding (rect1 rect2 : Rect) : Bool :=
  !(decide (rect1.right + 5 < rect2.left) ||
    decide (rect1.left > rect2.right + 5) ||
    decide (rect1.bottom + 5 < rect2.top) ||
    decide (rect1.top > rect2.bottom + 5))

/-- Synchronous part of adjustLabelPosition: rightShift is computed from the
current client rect of the label element; translateX is applied only when
rightShift is positive, replacing any previous transform.  Returns the updated
label state and the computed rightShift, which the scheduled zero-timeout
callback captures. -/
def adjustLabelPosition (l : LabelState) (conflictingRect : Rect) : LabelState × ℚ :=
  let currentRect := l.rect
  let rightShift := conflictingRect.right - currentRect.left + 10
  (if rightShift > 0 then { l with tx := rightShift, ty := 0 } else l, rightShift)

/-- Deferred part of adjustLabelPosition, the zero-timeout callback: reads
the current client rect; if it still collides with the captured conflicting
rect, sets the transform to translate rightShift, downShift with downShift
placing the label top 5px below the conflicting rect bottom. -/
def adjustLabelPositionDeferred (l : LabelState) (conflictingRect : Rect)
    (rightShift : ℚ) : LabelState :=
  let newRect := l.rect
  if isColliding newRect conflictingRect then
    { l with tx := rightShift, ty := conflictingRect.bottom - newRect.top + 5 }
  else l

/-- One element of the labels array of avoidLabelCollisions: the index of the
label element, and the cached bbox field, initialised from the client rect of
the BOX element and overwritten with the client rect of the LABEL element
after an adjustment. -/
structure Entry where
  idx : ℕ
  bbox : Rect
deriving DecidableEq

instance : Inhabited Entry := ⟨⟨0, default⟩⟩

/-- Insertion step of a stable ascending sort by the cached bbox top, the
ECMAScript sort semantics used by avoidLabelCollisions. -/
def insertEntry (e : Entry) : List Entry → List Entry
  | [] => [e]
  | x :: xs => if e.bbox.top < x.bbox.top then e :: x :: xs else x :: insertEntry e xs

/-- Stable sort of the labels array by cached bbox top, ascending. -/
def sortEntries (l : List Entry) : List Entry :=
  l.foldl (fun acc e => insertEntry e acc) []

/-- A pending zero-timeout callback scheduled by adjustLabelPosition, with the
values it captured. -/
structure Deferred where
  idx : ℕ
  conflictingRect : Rect
  rightShift : ℚ

/-- State threaded through the collision loop: the label states indexed in
original order, and the pending deferred callbacks in scheduling order. -/
structure PassState where
  states : List LabelState
  pend : List Deferred

/-- Body of the double loop for one ordered pair, labelA before labelB: on
collision of the cached bboxes, run the synchronous part of
adjustLabelPosition on labelB, record the deferred callback, and refresh the
cached bbox of labelB from the label client rect. -/
def collideStep (ps : PassState) (a b : Entry) : PassState × Entry :=
  if isColliding a.bbox b.bbox then
    let lb := ps.states.getD b.idx default
    let res := adjustLabelPosition lb a.bbox
    (⟨ps.states.set b.idx res.1, ps.pend ++ [⟨b.idx, a.bbox, res.2⟩]⟩, ⟨b.idx, res.1.rect⟩)
  else (ps, b)

/-- Inner loop of avoidLabelCollisions: labelA fixed, labelB ranging over the
entries after it, updates visible to later pairs. -/
def innerLoop (ps : PassState) (a : Entry) : List Entry → PassState × List Entry
  | [] => (ps, [])
  | b :: rest =>
    let s1 := collideStep ps a b
    let s2 := innerLoop s1.1 a rest
    (s2.1, s1.2 :: s2.2)

/-- Outer loop of avoidLabelCollisions, fuel-indexed: the fuel is the length
of the entries list, and innerLoop preserves that length, so the fuel never
runs out before the list does. -/
def outerLoopAux : ℕ → PassState → List Entry → PassState
  | 0, ps, _ => ps
  | _ + 1, ps, [] => ps
  | n + 1, ps, a :: rest =>
    let s1 := innerLoop ps a rest
    outerLoopAux n s1.1 s1.2

/-- Outer loop of avoidLabelCollisions over the sorted entries. -/
def outerLoop (ps : PassState) (l : List Entry) : PassState :=
  outerLoopAux l.length ps l

/-- Runs the scheduled zero-timeout callbacks in scheduling order. -/
def runDeferred (states : List LabelState) (pend : List Deferred) : List LabelState :=
  pend.foldl
    (fun sts d =>
      sts.set d.idx (adjustLabelPositionDeferred (sts.getD d.idx default) d.conflictingRect d.rightShift))
    states

/-- The labels array as first built: one entry per item, bbox initialised from
the client rect of the box element. -/
def initialEntries (boxes : List Rect) : List Entry :=
  boxes.enum.map fun p => ⟨p.1, p.2⟩

/-- avoidLabelCollisions of the source, including the deferred callbacks it
schedules: build the entries from the box client rects, sort by cached top,
run the pairwise loop, then run the zero-timeout callbacks in scheduling
order. -/
def avoidLabelCollisions (boxes : List Rect) (states0 : List LabelState) : List LabelState :=
  let sorted := sortEntries (initialEntries boxes)
  let ps := outerLoop ⟨states0, []⟩ sorted
  runDeferred ps.states ps.pend

/-- drawBoundingBoxes: map every bbox to percentage styles, place the labels,
run collision avoidance; result is the final client rect of every label, in
input order.  The function is total: no input reaches an error path. -/
def drawBoundingBoxes (dets : List Detection) (W H : ℚ) : List Rect :=
  let elems := dets.map mkBBoxElement
  let boxes := elems.map fun e => boxScreenRect e W H
  let states0 := positionLabelsIntelligently elems W H
  (avoidLabelCollisions boxes states0).map LabelState.rect

/-- The bbox container contents: the client rects of the label elements it
currently holds. -/
structure ContainerState where
  children : List Rect
deriving DecidableEq

/-- container.innerHTML cleared at the start of drawBoundingBoxes. -/
def clearContainer (_s : ContainerState) : ContainerState := ⟨[]⟩

/-- drawBoundingBoxes as a transformer of the container state: clear the
container, then append the freshly built and laid out elements. -/
def drawBoundingBoxesState (dets : List Detection) (W H : ℚ) (s : ContainerState) :
    ContainerState :=
  ⟨(clearContainer s).children ++ drawBoundingBoxes dets W H⟩

/-- The sorted labels array of avoidLabelCollisions as built for a given
detection list: entries carry the box client rects. -/
def codeSortedEntries (dets : List Detection) (W H : ℚ) : List Entry :=
  sortEntries (initialEntries ((dets.map mkBBoxElement).map fun e => boxScreenRect e W H))

/-- Top coordinates of the LABEL client rects read off in the sorted order the
code establishes. -/
def sortedLabelTops (dets : List Detection) (W H : ℚ) : List ℚ :=
  (codeSortedEntries dets W H).map fun en =>
    ((positionLabelsIntelligently (dets.map mkBBoxElement) W H).getD en.idx default).rect.top

/-! ## Helper lemmas -/

lemma isColliding_eq_true_iff (r1 r2 : Rect) :
    isColliding r1 r2 = true ↔
      (r2.left ≤ r1.right + 5 ∧ r1.left ≤ r2.right + 5 ∧
       r2.top ≤ r1.bottom + 5 ∧ r1.top ≤ r2.bottom + 5) := by
  simp [isColliding, not_lt, and_assoc]

lemma isColliding_eq_false_iff (r1 r2 : Rect) :
    isColliding r1 r2 = false ↔
      (r1.right + 5 < r2.left ∨ r2.right + 5 < r1.left ∨
       r1.bottom + 5 < r2.top ∨ r2.bottom + 5 < r1.top) := by
  rw [Bool.eq_false_iff, ne_eq, isColliding_eq_true_iff, not_and_or, not_and_or, not_and_or]
  simp [not_le]

lemma isColliding_comm (r1 r2 : Rect) : isColliding r1 r2 = isColliding r2 r1 := by
  cases h : isColliding r2 r1
  · rw [isColliding_eq_false_iff] at h ⊢
    tauto
  · rw [isColliding_eq_true_iff] at h ⊢
    tauto

/-! ## Claims about the coordinate mapping and error behaviour -/

/-- Claim C10: the collision predicate is symmetric: for every pair of
rectangles, isColliding gives the same answer in both argument orders, so
whether two rectangles are within the 5px margin of each other does not
depend on argument order. -/
theorem isColliding_symmetric (r1 r2 : Rect) : isColliding r1 r2 = isColliding r2 r1 :=
  isColliding_comm r1 r2

/-- Claim C9: drawBoundingBoxes maps every bounding box from the fixed
512-unit normalized space to percentage-based screen coordinates by dividing
each coordinate, and each width and height difference, by 512 and multiplying
by 100; the resulting box client rect scales the bounding box by container
dimension over 512, and no source image dimension enters the computation. -/
theorem drawBoundingBoxes_fixed512_mapping (b : BBox) (lw lh W H : ℚ) :
    leftPercent b = b.x1 / 512 * 100 ∧
    topPercent b = b.y1 / 512 * 100 ∧
    widthPercent b = (b.x2 - b.x1) / 512 * 100 ∧
    heightPercent b = (b.y2 - b.y1) / 512 * 100 ∧
    boxScreenRect (mkBBoxElement ⟨b, lw, lh⟩) W H =
      ⟨b.x1 * W / 512, b.y1 * H / 512,
       (b.x2 - b.x1) * W / 512, (b.y2 - b.y1) * H / 512⟩ := by
  refine ⟨rfl, rfl, rfl, rfl, ?_⟩
  simp only [boxScreenRect, mkBBoxElement, leftPercent, topPercent, widthPercent,
    heightPercent, Rect.mk.injEq]
  refine ⟨by ring, by ring, by ring, by ring⟩

/-- Claim C8: a bounding box with x2 < x1 is not validated and reaches no
error path: the layout is a total function and assigns the box rectangle a
negative width. -/
theorem malformed_bbox_negative_width (d : Detection) (W H : ℚ)
    (hx : d.bbox.x2 < d.bbox.x1) (hW : 0 < W) :
    (boxScreenRect (mkBBoxElement d) W H).width < 0 := by
  simp only [boxScreenRect, mkBBoxElement, widthPercent]
  have h1 : d.bbox.x2 - d.bbox.x1 < 0 := by linarith
  have h2 : (d.bbox.x2 - d.bbox.x1) / 512 * 100 / 100 * W = (d.bbox.x2 - d.bbox.x1) * W / 512 := by
    ring
  rw [h2]
  exact div_neg_of_neg_of_pos (mul_neg_of_neg_of_pos h1 hW) (by norm_num)

theorem malformed_bbox_negative_width_witness :
    (10 : ℚ) < 60 ∧ (0 : ℚ) < 512 ∧
    (boxScreenRect (mkBBoxElement ⟨⟨60, 10, 10, 60⟩, 10, 10⟩) 512 512).width < 0 :=
  ⟨by norm_num, by norm_num,
   malformed_bbox_negative_width ⟨⟨60, 10, 10, 60⟩, 10, 10⟩ 512 512 (by norm_num) (by norm_num)⟩

/-- Claim C7: zero detections produce zero labels and no error: the layout is
a total computation, and on the empty detection list it returns the empty
label list and leaves the container with no children. -/
theorem drawBoundingBoxes_empty (W H : ℚ) (s : ContainerState) :
    drawBoundingBoxes [] W H = [] ∧ drawBoundingBoxesState [] W H s = ⟨[]⟩ :=
  ⟨rfl, rfl⟩

/-- Claim C6: the layout is idempotent: drawBoundingBoxes first clears the
container and rebuilds every element from the detections alone, so its result
does not depend on the previous container state, and running the full layout
twice on the same detections and viewport yields identical output positions. -/
theorem drawBoundingBoxes_idempotent (dets : List Detection) (W H : ℚ) (s : ContainerState) :
    drawBoundingBoxesState dets W H (drawBoundingBoxesState dets W H s) =
      drawBoundingBoxesState dets W H s ∧
    (∀ t : ContainerState, drawBoundingBoxesState dets W H t = drawBoundingBoxesState dets W H s) :=
  ⟨rfl, fun _ => rfl⟩

/-! ## Claims about the placement pass -/

/-- Claim C4 (amended): the vertical anchor comparisons are strict:
topPercent strictly below 15 places the label below the box, with its top at
the box bottom plus the 2px margin; topPercent strictly above 85 places it
above the box, with its bottom at the box top minus the 2px margin; for
topPercent between 15 and 85 inclusive the label sits at the default offset,
its top 25px above the box top. -/
theorem vertical_anchor_placement (e : BBoxElement) (W H : ℚ) :
    (e.topPercent < 15 →
      vPlace e = VPlace.below ∧
      (labelBaseRect e W H).top = (boxScreenRect e W H).bottom + 2) ∧
    (85 < e.topPercent →
      vPlace e = VPlace.above ∧
      (labelBaseRect e W H).bottom = (boxScreenRect e W H).top - 2) ∧
    (15 ≤ e.topPercent → e.topPercent ≤ 85 →
      vPlace e = VPlace.defaultAbove ∧
      (labelBaseRect e W H).top = (boxScreenRect e W H).top - 25) := by
  refine ⟨fun h => ?_, fun h => ?_, fun h1 h2 => ?_⟩
  · have hv : vPlace e = VPlace.below := by
      simp [vPlace, BBoxElement.isNearTop, h]
    refine ⟨hv, ?_⟩
    simp [labelBaseRect, hv, Rect.bottom]
  · have hv : vPlace e = VPlace.above := by
      have hnt : ¬ e.topPercent < 15 := by linarith
      simp [vPlace, BBoxElement.isNearTop, BBoxElement.isNearBottom, hnt, h]
    refine ⟨hv, ?_⟩
    simp [labelBaseRect, hv, Rect.bottom]
  · have hv : vPlace e = VPlace.defaultAbove := by
      have hnt : ¬ e.topPercent < 15 := by linarith
      have hnb : ¬ 85 < e.topPercent := by linarith
      simp [vPlace, BBoxElement.isNearTop, BBoxElement.isNearBottom, hnt, hnb]
    refine ⟨hv, ?_⟩
    simp [labelBaseRect, hv]

theorem vertical_anchor_placement_witness :
    (mkBBoxElement ⟨⟨0, 10, 50, 60⟩, 20, 14⟩).topPercent < 15 ∧
    (vPlace (mkBBoxElement ⟨⟨0, 10, 50, 60⟩, 20, 14⟩) = VPlace.below ∧
     (labelBaseRect (mkBBoxElement ⟨⟨0, 10, 50, 60⟩, 20, 14⟩) 512 512).top =
       (boxScreenRect (mkBBoxElement ⟨⟨0, 10, 50, 60⟩, 20, 14⟩) 512 512).bottom + 2) :=
  ⟨by norm_num [mkBBoxElement, topPercent],
   (vertical_anchor_placement (mkBBoxElement ⟨⟨0, 10, 50, 60⟩, 20, 14⟩) 512 512).1
     (by norm_num [mkBBoxElement, topPercent])⟩

/-- Claim C4 fails as stated at the boundary: y1 equal to 384/5 gives
topPercent exactly 15, the claim then requires the below branch, but the code
comparison is strict and takes the default branch. -/
theorem vertical_anchor_boundary_counterexample :
    (mkBBoxElement ⟨⟨0, 384/5, 10, 100⟩, 10, 10⟩).topPercent ≤ 15 ∧
    vPlace (mkBBoxElement ⟨⟨0, 384/5, 10, 100⟩, 10, 10⟩) ≠ VPlace.below := by
  constructor
  · norm_num [mkBBoxElement, topPercent]
  · norm_num [vPlace, mkBBoxElement, topPercent, BBoxElement.isNearTop,
      BBoxElement.isNearBottom]
    decide

/-- Claim C5 (amended): the horizontal alignment comparison is strict:
leftPercent strictly above 90 right-aligns the label, its right edge at the
box right edge; leftPercent at most 90 left-aligns it, its left edge at the
box left edge. -/
theorem horizontal_align_placement (e : BBoxElement) (W H : ℚ) :
    (90 < e.leftPercent →
      hPlace e = HPlace.rightAlign ∧
      (labelBaseRect e W H).right = (boxScreenRect e W H).right) ∧
    (e.leftPercent ≤ 90 →
      hPlace e = HPlace.leftAlign ∧
      (labelBaseRect e W H).left = (boxScreenRect e W H).left) := by
  refine ⟨fun h => ?_, fun h => ?_⟩
  · have hh : hPlace e = HPlace.rightAlign := by
      simp [hPlace, BBoxElement.isNearRight, h]
    refine ⟨hh, ?_⟩
    simp [labelBaseRect, hh, Rect.right]
  · have hh : hPlace e = HPlace.leftAlign := by
      have hnr : ¬ 90 < e.leftPercent := by linarith
      simp [hPlace, BBoxElement.isNearRight, hnr]
    refine ⟨hh, ?_⟩
    simp [labelBaseRect, hh]

theorem horizontal_align_placement_witness :
    90 < (mkBBoxElement ⟨⟨500, 200, 510, 260⟩, 20, 14⟩).leftPercent ∧
    (hPlace (mkBBoxElement ⟨⟨500, 200, 510, 260⟩, 20, 14⟩) = HPlace.rightAlign ∧
     (labelBaseRect (mkBBoxElement ⟨⟨500, 200, 510, 260⟩, 20, 14⟩) 512 512).right =
       (boxScreenRect (mkBBoxElement ⟨⟨500, 200, 510, 260⟩, 20, 14⟩) 512 512).right) :=
  ⟨by norm_num [mkBBoxElement, leftPercent],
   (horizontal_align_placement (mkBBoxElement ⟨⟨500, 200, 510, 260⟩, 20, 14⟩) 512 512).1
     (by norm_num [mkBBoxElement, leftPercent])⟩

/-- Claim C5 fails as stated at the boundary: x1 equal to 2304/5 gives
leftPercent exactly 90, the claim then requires right alignment, but the code
comparison is strict and left-aligns. -/
theorem horizontal_align_boundary_counterexample :
    90 ≤ (mkBBoxElement ⟨⟨2304/5, 0, 500, 10⟩, 10, 10⟩).leftPercent ∧
    hPlace (mkBBoxElement ⟨⟨2304/5, 0, 500, 10⟩, 10, 10⟩) ≠ HPlace.rightAlign := by
  constructor
  · norm_num [mkBBoxElement, leftPercent]
  · norm_num [hPlace, mkBBoxElement, leftPercent, BBoxElement.isNearRight]
    decide

/-! ## Helper lemmas about the collision pass -/

/-- A label whose transform is untouched, once adjusted against a conflicting
rectangle and after its own deferred callback has run, does not overlap that
conflicting rectangle: either the horizontal shift already separated them by
more than the margin, or the deferred vertical shift parks the label top 5px
below the conflicting bottom. -/
lemma adjust_then_deferred_no_overlap (l : LabelState) (c : Rect) (hty : l.ty = 0) :
    ¬ overlaps
      (adjustLabelPositionDeferred (adjustLabelPosition l c).1 c
        (adjustLabelPosition l c).2).rect c := by
  unfold adjustLabelPosition adjustLabelPositionDeferred
  simp only [LabelState.rect]
  split_ifs with h1 h2 h3 <;> intro hov
  · simp only [overlaps, Rect.bottom] at hov
    linarith [hov.2.2.1]
  · rw [Bool.not_eq_true, isColliding_eq_false_iff] at h2
    simp only [overlaps, Rect.right, Rect.bottom] at hov h2
    rcases h2 with h | h | h | h <;> linarith [hov.1, hov.2.1, hov.2.2.1, hov.2.2.2]
  · simp only [overlaps, Rect.bottom] at hov
    linarith [hov.2.2.1, hty]
  · rw [Bool.not_eq_true, isColliding_eq_false_iff] at h3
    simp only [overlaps, Rect.right, Rect.bottom] at hov h3
    rcases h3 with h | h | h | h <;> linarith [hov.1, hov.2.1, hov.2.2.1, hov.2.2.2]

/-- Full evaluation of the collision pass on exactly two items: the stable
sort keeps input order unless the second box top is strictly smaller; the
single ordered pair is tested on the BOX rects, and on collision the
later-sorted label goes through the synchronous adjustment and then its
deferred callback. -/
lemma avoidLabelCollisions_pair (b0 b1 : Rect) (s0 s1 : LabelState) :
    avoidLabelCollisions [b0, b1] [s0, s1] =
      if b1.top < b0.top then
        if isColliding b1 b0 then
          [adjustLabelPositionDeferred (adjustLabelPosition s0 b1).1 b1
             (adjustLabelPosition s0 b1).2, s1]
        else [s0, s1]
      else
        if isColliding b0 b1 then
          [s0, adjustLabelPositionDeferred (adjustLabelPosition s1 b0).1 b0
             (adjustLabelPosition s1 b0).2]
        else [s0, s1] := by
  by_cases h : b1.top < b0.top <;> by_cases hc : isColliding b1 b0 = true <;>
    by_cases hd : isColliding b0 b1 = true <;>
      simp [avoidLabelCollisions, initialEntries, sortEntries, insertEntry, outerLoop,
        outerLoopAux, innerLoop, collideStep, runDeferred, List.enum, List.enumFrom,
        h, hc, hd]

/-! ## Claims about the collision pass -/

/-- Claim C1 (amended): the collision pass tests the regions BOX client rects
within the 5px margin, not the labels rects.  For an input of exactly two
regions whose box rects collide, after the pass and its deferred vertical
adjustment complete, the later-sorted label rect does not overlap the
earlier-sorted region box rect.  The two label rects themselves may still
overlap, and two labels whose boxes are separated are never adjusted at
all. -/
theorem two_region_collision_resolution (d0 d1 : Detection) (W H : ℚ)
    (hc : isColliding (boxScreenRect (mkBBoxElement d0) W H)
            (boxScreenRect (mkBBoxElement d1) W H) = true) :
    if (boxScreenRect (mkBBoxElement d1) W H).top <
        (boxScreenRect (mkBBoxElement d0) W H).top
    then ¬ overlaps ((drawBoundingBoxes [d0, d1] W H).getD 0 default)
           (boxScreenRect (mkBBoxElement d1) W H)
    else ¬ overlaps ((drawBoundingBoxes [d0, d1] W H).getD 1 default)
           (boxScreenRect (mkBBoxElement d0) W H) := by
  have hdraw : drawBoundingBoxes [d0, d1] W H =
      (avoidLabelCollisions
        [boxScreenRect (mkBBoxElement d0) W H, boxScreenRect (mkBBoxElement d1) W H]
        [⟨labelBaseRect (mkBBoxElement d0) W H, 0, 0⟩,
         ⟨labelBaseRect (mkBBoxElement d1) W H, 0, 0⟩]).map LabelState.rect := rfl
  rw [hdraw, avoidLabelCollisions_pair]
  split_ifs with h h1
  · simp only [List.map_cons, List.map_nil, List.getD_cons_zero]
    exact adjust_then_deferred_no_overlap _ _ rfl
  · exact absurd ((isColliding_comm _ _).trans hc) h1
  · simp only [List.map_cons, List.map_nil, List.getD_cons_succ, List.getD_cons_zero]
    exact adjust_then_deferred_no_overlap _ _ rfl

theorem two_region_collision_resolution_witness :
    (isColliding (boxScreenRect (mkBBoxElement ⟨⟨10, 10, 60, 60⟩, 20, 14⟩) 512 512)
       (boxScreenRect (mkBBoxElement ⟨⟨10, 10, 60, 60⟩, 20, 14⟩) 512 512) = true) ∧
    (if (boxScreenRect (mkBBoxElement ⟨⟨10, 10, 60, 60⟩, 20, 14⟩) 512 512).top <
         (boxScreenRect (mkBBoxElement ⟨⟨10, 10, 60, 60⟩, 20, 14⟩) 512 512).top
     then ¬ overlaps
            ((drawBoundingBoxes [⟨⟨10, 10, 60, 60⟩, 20, 14⟩, ⟨⟨10, 10, 60, 60⟩, 20, 14⟩]
                512 512).getD 0 default)
            (boxScreenRect (mkBBoxElement ⟨⟨10, 10, 60, 60⟩, 20, 14⟩) 512 512)
     else ¬ overlaps
            ((drawBoundingBoxes [⟨⟨10, 10, 60, 60⟩, 20, 14⟩, ⟨⟨10, 10, 60, 60⟩, 20, 14⟩]
                512 512).getD 1 default)
            (boxScreenRect (mkBBoxElement ⟨⟨10, 10, 60, 60⟩, 20, 14⟩) 512 512)) :=
  ⟨by
    rw [isColliding_eq_true_iff]
    norm_num [boxScreenRect, mkBBoxElement, leftPercent, topPercent, widthPercent,
      heightPercent, Rect.right, Rect.bottom],
   two_region_collision_resolution ⟨⟨10, 10, 60, 60⟩, 20, 14⟩ ⟨⟨10, 10, 60, 60⟩, 20, 14⟩
     512 512
     (by
       rw [isColliding_eq_true_iff]
       norm_num [boxScreenRect, mkBBoxElement, leftPercent, topPercent, widthPercent,
         heightPercent, Rect.right, Rect.bottom])⟩

/-- Claim C1 fails as stated: two regions whose initial label rects overlap
outright (well beyond the 5px margin) while their box rects are more than 5px
apart.  The pass tests the box rects, finds no collision, and outputs the two
labels still overlapping. -/
theorem two_region_label_overlap_counterexample :
    isColliding (labelBaseRect (mkBBoxElement ⟨⟨0, 100, 30, 130⟩, 60, 14⟩) 512 512)
        (labelBaseRect (mkBBoxElement ⟨⟨50, 100, 80, 130⟩, 60, 14⟩) 512 512) = true ∧
    overlaps (labelBaseRect (mkBBoxElement ⟨⟨0, 100, 30, 130⟩, 60, 14⟩) 512 512)
        (labelBaseRect (mkBBoxElement ⟨⟨50, 100, 80, 130⟩, 60, 14⟩) 512 512) ∧
    overlaps
        ((drawBoundingBoxes [⟨⟨0, 100, 30, 130⟩, 60, 14⟩, ⟨⟨50, 100, 80, 130⟩, 60, 14⟩]
            512 512).getD 0 default)
        ((drawBoundingBoxes [⟨⟨0, 100, 30, 130⟩, 60, 14⟩, ⟨⟨50, 100, 80, 130⟩, 60, 14⟩]
            512 512).getD 1 default) := by
  have hbase0 : labelBaseRect (mkBBoxElement ⟨⟨0, 100, 30, 130⟩, 60, 14⟩) 512 512 =
      ⟨0, 75, 60, 14⟩ := by
    norm_num [labelBaseRect, vPlace, hPlace, BBoxElement.isNearTop, BBoxElement.isNearBottom,
      BBoxElement.isNearRight, boxScreenRect, mkBBoxElement, leftPercent, topPercent,
      widthPercent, heightPercent, Rect.mk.injEq]
  have hbase1 : labelBaseRect (mkBBoxElement ⟨⟨50, 100, 80, 130⟩, 60, 14⟩) 512 512 =
      ⟨50, 75, 60, 14⟩ := by
    norm_num [labelBaseRect, vPlace, hPlace, BBoxElement.isNearTop, BBoxElement.isNearBottom,
      BBoxElement.isNearRight, boxScreenRect, mkBBoxElement, leftPercent, topPercent,
      widthPercent, heightPercent, Rect.mk.injEq]
  have hbox0 : boxScreenRect (mkBBoxElement ⟨⟨0, 100, 30, 130⟩, 60, 14⟩) 512 512 =
      ⟨0, 100, 30, 30⟩ := by
    norm_num [boxScreenRect, mkBBoxElement, leftPercent, topPercent, widthPercent,
      heightPercent, Rect.mk.injEq]
  have hbox1 : boxScreenRect (mkBBoxElement ⟨⟨50, 100, 80, 130⟩, 60, 14⟩) 512 512 =
      ⟨50, 100, 30, 30⟩ := by
    norm_num [boxScreenRect, mkBBoxElement, leftPercent, topPercent, widthPercent,
      heightPercent, Rect.mk.injEq]
  refine ⟨?_, ?_, ?_⟩
  · rw [hbase0, hbase1, isColliding_eq_true_iff]
    norm_num [Rect.right, Rect.bottom]
  · rw [hbase0, hbase1]
    norm_num [overlaps, Rect.right, Rect.bottom]
  · have hdraw : drawBoundingBoxes
        [⟨⟨0, 100, 30, 130⟩, 60, 14⟩, ⟨⟨50, 100, 80, 130⟩, 60, 14⟩] 512 512 =
        (avoidLabelCollisions
          [boxScreenRect (mkBBoxElement ⟨⟨0, 100, 30, 130⟩, 60, 14⟩) 512 512,
           boxScreenRect (mkBBoxElement ⟨⟨50, 100, 80, 130⟩, 60, 14⟩) 512 512]
          [⟨labelBaseRect (mkBBoxElement ⟨⟨0, 100, 30, 130⟩, 60, 14⟩) 512 512, 0, 0⟩,
           ⟨labelBaseRect (mkBBoxElement ⟨⟨50, 100, 80, 130⟩, 60, 14⟩) 512 512, 0, 0⟩]).map
          LabelState.rect := rfl
    rw [hdraw, hbox0, hbox1, hbase0, hbase1, avoidLabelCollisions_pair]
    have hnc : isColliding (⟨0, 100, 30, 30⟩ : Rect) ⟨50, 100, 30, 30⟩ = false := by
      rw [isColliding_eq_false_iff]
      norm_num [Rect.right, Rect.bottom]
    rw [if_neg (by norm_num), if_neg (by simp [hnc])]
    norm_num [LabelState.rect, overlaps, Rect.right, Rect.bottom]

/-- When the horizontal shift applies to a label with a clear transform, the
adjusted label left edge lands exactly at the conflicting rect right edge plus
10px, and the deferred callback leaves it there: the horizontal gap of 10
already exceeds the 5px margin on that side. -/
lemma adjust_then_deferred_left (s : LabelState) (b : Rect) (htx : s.tx = 0)
    (hrs : b.right - (s.base.left + s.tx) + 10 > 0) :
    (adjustLabelPositionDeferred (adjustLabelPosition s b).1 b
      (adjustLabelPosition s b).2).rect.left = b.right + 10 := by
  unfold adjustLabelPosition adjustLabelPositionDeferred
  simp only [LabelState.rect]
  rw [if_pos hrs]
  have hnc : isColliding
      (⟨s.base.left + (b.right - (s.base.left + s.tx) + 10), s.base.top,
        s.base.width, s.base.height⟩ : Rect) b = false := by
    rw [isColliding_eq_false_iff]
    right; left
    simp only []
    rw [htx]
    linarith
  rw [if_neg (by simp [hnc])]
  simp only [LabelState.rect]
  rw [htx]
  ring

/-- Claim C3 (amended): the horizontal shift places the later label left edge
just past the right edge of the CONFLICTING rectangle with a 10px gap, and on
the first adjustment the conflicting rectangle is the earlier region BOX
client rect, not its label rect.  In the identical-box scenario
x1 10, y1 10, x2 60, y2 60 in the 512 space, the second label left edge ends
exactly at the first region box right edge plus 10; that is at least the
first LABEL right edge plus 10 exactly when the first label is no wider than
its box. -/
theorem horizontal_shift_scenario (W H lw0 lh0 lw1 lh1 : ℚ) (hW : 0 < W) (hH : 0 < H) :
    ((drawBoundingBoxes [⟨⟨10, 10, 60, 60⟩, lw0, lh0⟩, ⟨⟨10, 10, 60, 60⟩, lw1, lh1⟩]
        W H).getD 1 default).left =
      (boxScreenRect (mkBBoxElement ⟨⟨10, 10, 60, 60⟩, lw0, lh0⟩) W H).right + 10 ∧
    (lw0 ≤ (boxScreenRect (mkBBoxElement ⟨⟨10, 10, 60, 60⟩, lw0, lh0⟩) W H).width →
      (labelBaseRect (mkBBoxElement ⟨⟨10, 10, 60, 60⟩, lw0, lh0⟩) W H).right + 10 ≤
        ((drawBoundingBoxes [⟨⟨10, 10, 60, 60⟩, lw0, lh0⟩, ⟨⟨10, 10, 60, 60⟩, lw1, lh1⟩]
            W H).getD 1 default).left) := by
  have hbb : boxScreenRect (mkBBoxElement ⟨⟨10, 10, 60, 60⟩, lw1, lh1⟩) W H =
      boxScreenRect (mkBBoxElement ⟨⟨10, 10, 60, 60⟩, lw0, lh0⟩) W H := rfl
  have hwval : (boxScreenRect (mkBBoxElement ⟨⟨10, 10, 60, 60⟩, lw0, lh0⟩) W H).width =
      25 / 256 * W := by
    norm_num [boxScreenRect, mkBBoxElement, widthPercent]
  have hhval : (boxScreenRect (mkBBoxElement ⟨⟨10, 10, 60, 60⟩, lw0, lh0⟩) W H).height =
      25 / 256 * H := by
    norm_num [boxScreenRect, mkBBoxElement, heightPercent]
  have hwpos : 0 < (boxScreenRect (mkBBoxElement ⟨⟨10, 10, 60, 60⟩, lw0, lh0⟩) W H).width := by
    rw [hwval]
    exact mul_pos (by norm_num) hW
  have hhpos : 0 < (boxScreenRect (mkBBoxElement ⟨⟨10, 10, 60, 60⟩, lw0, lh0⟩) W H).height := by
    rw [hhval]
    exact mul_pos (by norm_num) hH
  have hcoll : isColliding (boxScreenRect (mkBBoxElement ⟨⟨10, 10, 60, 60⟩, lw0, lh0⟩) W H)
      (boxScreenRect (mkBBoxElement ⟨⟨10, 10, 60, 60⟩, lw1, lh1⟩) W H) = true := by
    rw [hbb, isColliding_eq_true_iff]
    simp only [Rect.right, Rect.bottom]
    refine ⟨by linarith, by linarith, by linarith, by linarith⟩
  have hh1 : hPlace (mkBBoxElement ⟨⟨10, 10, 60, 60⟩, lw1, lh1⟩) = HPlace.leftAlign := by
    norm_num [hPlace, BBoxElement.isNearRight, mkBBoxElement, leftPercent]
  have hbl1 : (labelBaseRect (mkBBoxElement ⟨⟨10, 10, 60, 60⟩, lw1, lh1⟩) W H).left =
      (boxScreenRect (mkBBoxElement ⟨⟨10, 10, 60, 60⟩, lw0, lh0⟩) W H).left := by
    simp only [labelBaseRect, hh1]
    rw [hbb]
  have hh0 : hPlace (mkBBoxElement ⟨⟨10, 10, 60, 60⟩, lw0, lh0⟩) = HPlace.leftAlign := by
    norm_num [hPlace, BBoxElement.isNearRight, mkBBoxElement, leftPercent]
  have hbl0 : (labelBaseRect (mkBBoxElement ⟨⟨10, 10, 60, 60⟩, lw0, lh0⟩) W H).left =
      (boxScreenRect (mkBBoxElement ⟨⟨10, 10, 60, 60⟩, lw0, lh0⟩) W H).left := by
    simp only [labelBaseRect, hh0]
  have hdraw : drawBoundingBoxes
      [⟨⟨10, 10, 60, 60⟩, lw0, lh0⟩, ⟨⟨10, 10, 60, 60⟩, lw1, lh1⟩] W H =
      (avoidLabelCollisions
        [boxScreenRect (mkBBoxElement ⟨⟨10, 10, 60, 60⟩, lw0, lh0⟩) W H,
         boxScreenRect (mkBBoxElement ⟨⟨10, 10, 60, 60⟩, lw1, lh1⟩) W H]
        [⟨labelBaseRect (mkBBoxElement ⟨⟨10, 10, 60, 60⟩, lw0, lh0⟩) W H, 0, 0⟩,
         ⟨labelBaseRect (mkBBoxElement ⟨⟨10, 10, 60, 60⟩, lw1, lh1⟩) W H, 0, 0⟩]).map
        LabelState.rect := rfl
  have hleft : ((drawBoundingBoxes
      [⟨⟨10, 10, 60, 60⟩, lw0, lh0⟩, ⟨⟨10, 10, 60, 60⟩, lw1, lh1⟩] W H).getD 1 default).left =
      (boxScreenRect (mkBBoxElement ⟨⟨10, 10, 60, 60⟩, lw0, lh0⟩) W H).right + 10 := by
    rw [hdraw, avoidLabelCollisions_pair]
    rw [if_neg (by rw [hbb]; exact lt_irrefl _), if_pos hcoll]
    simp only [List.map_cons, List.map_nil, List.getD_cons_succ, List.getD_cons_zero]
    refine adjust_then_deferred_left _ _ rfl ?_
    simp only [Rect.right]
    rw [hbl1]
    simp only [Rect.right] at *
    linarith
  refine ⟨hleft, fun hlw => ?_⟩
  rw [hleft]
  have hbr0 : (labelBaseRect (mkBBoxElement ⟨⟨10, 10, 60, 60⟩, lw0, lh0⟩) W H).right =
      (boxScreenRect (mkBBoxElement ⟨⟨10, 10, 60, 60⟩, lw0, lh0⟩) W H).left + lw0 := by
    have hlab0 : (mkBBoxElement (⟨⟨10, 10, 60, 60⟩, lw0, lh0⟩ : Detection)).labelW = lw0 := rfl
    simp only [Rect.right, labelBaseRect, hh0, hlab0]
  simp only [Rect.right] at hbr0 ⊢
  rw [hbr0]
  linarith

theorem horizontal_shift_scenario_witness :
    (0 : ℚ) < 512 ∧
    (20 : ℚ) ≤ (boxScreenRect (mkBBoxElement ⟨⟨10, 10, 60, 60⟩, 20, 14⟩) 512 512).width ∧
    (labelBaseRect (mkBBoxElement ⟨⟨10, 10, 60, 60⟩, 20, 14⟩) 512 512).right + 10 ≤
      ((drawBoundingBoxes [⟨⟨10, 10, 60, 60⟩, 20, 14⟩, ⟨⟨10, 10, 60, 60⟩, 30, 14⟩]
          512 512).getD 1 default).left :=
  ⟨by norm_num,
   by norm_num [boxScreenRect, mkBBoxElement, widthPercent],
   (horizontal_shift_scenario 512 512 20 14 30 14 (by norm_num) (by norm_num)).2
     (by norm_num [boxScreenRect, mkBBoxElement, widthPercent])⟩

/-- Claim C3 fails as stated with labels wider than the box: in the scenario
with identical boxes x1 10, y1 10, x2 60, y2 60 at a 512px container and
80px-wide labels, the second label ends with left edge 70, while the first
LABEL right edge is 90: the shift targets the box right edge (60), not the
label right edge. -/
theorem horizontal_shift_counterexample :
    ((drawBoundingBoxes [⟨⟨10, 10, 60, 60⟩, 80, 14⟩, ⟨⟨10, 10, 60, 60⟩, 80, 14⟩]
        512 512).getD 1 default).left = 70 ∧
    (labelBaseRect (mkBBoxElement ⟨⟨10, 10, 60, 60⟩, 80, 14⟩) 512 512).right = 90 ∧
    ¬ ((90 : ℚ) + 10 ≤ 70) := by
  have hbox : boxScreenRect (mkBBoxElement ⟨⟨10, 10, 60, 60⟩, 80, 14⟩) 512 512 =
      ⟨10, 10, 50, 50⟩ := by
    norm_num [boxScreenRect, mkBBoxElement, leftPercent, topPercent, widthPercent,
      heightPercent, Rect.mk.injEq]
  have hbase : labelBaseRect (mkBBoxElement ⟨⟨10, 10, 60, 60⟩, 80, 14⟩) 512 512 =
      ⟨10, 62, 80, 14⟩ := by
    norm_num [labelBaseRect, vPlace, hPlace, BBoxElement.isNearTop, BBoxElement.isNearBottom,
      BBoxElement.isNearRight, boxScreenRect, mkBBoxElement, leftPercent, topPercent,
      widthPercent, heightPercent, Rect.mk.injEq]
  refine ⟨?_, ?_, by norm_num⟩
  · have hdraw : drawBoundingBoxes
        [⟨⟨10, 10, 60, 60⟩, 80, 14⟩, ⟨⟨10, 10, 60, 60⟩, 80, 14⟩] 512 512 =
        (avoidLabelCollisions
          [boxScreenRect (mkBBoxElement ⟨⟨10, 10, 60, 60⟩, 80, 14⟩) 512 512,
           boxScreenRect (mkBBoxElement ⟨⟨10, 10, 60, 60⟩, 80, 14⟩) 512 512]
          [⟨labelBaseRect (mkBBoxElement ⟨⟨10, 10, 60, 60⟩, 80, 14⟩) 512 512, 0, 0⟩,
           ⟨labelBaseRect (mkBBoxElement ⟨⟨10, 10, 60, 60⟩, 80, 14⟩) 512 512, 0, 0⟩]).map
          LabelState.rect := rfl
    rw [hdraw, hbox, hbase, avoidLabelCollisions_pair]
    have hcoll : isColliding (⟨10, 10, 50, 50⟩ : Rect) ⟨10, 10, 50, 50⟩ = true := by
      rw [isColliding_eq_true_iff]
      norm_num [Rect.right, Rect.bottom]
    rw [if_neg (by norm_num), if_pos hcoll]
    norm_num [adjustLabelPosition, adjustLabelPositionDeferred, LabelState.rect,
      isColliding, Rect.right, Rect.bottom]
  · rw [hbase]
    norm_num [Rect.right]

/-! ## Sortedness of the stable sort in the collision pass -/

lemma insertEntry_head_cases (e y : Entry) (l : List Entry)
    (hy : (insertEntry e l).head? = some y) : y = e ∨ l.head? = some y := by
  cases l with
  | nil =>
    simp [insertEntry] at hy
    exact Or.inl hy.symm
  | cons x xs =>
    rw [insertEntry] at hy
    split at hy
    · simp at hy
      exact Or.inl hy.symm
    · simp at hy
      exact Or.inr (by simp [hy])

lemma chain_insertEntry (e : Entry) (l : List Entry)
    (h : List.Chain' (fun a b => a.bbox.top ≤ b.bbox.top) l) :
    List.Chain' (fun a b => a.bbox.top ≤ b.bbox.top) (insertEntry e l) := by
  induction l with
  | nil => simp [insertEntry]
  | cons x xs ih =>
    rw [insertEntry]
    split_ifs with hx
    · rw [List.chain'_cons]
      exact ⟨le_of_lt hx, h⟩
    · rw [List.chain'_cons']
      refine ⟨fun y hy => ?_, ih h.tail⟩
      rcases insertEntry_head_cases e y xs hy with rfl | hxy
      · exact not_lt.mp hx
      · exact (List.chain'_cons'.mp h).1 y hxy

lemma chain_sortEntries_aux (l : List Entry) (acc : List Entry)
    (h : List.Chain' (fun a b => a.bbox.top ≤ b.bbox.top) acc) :
    List.Chain' (fun a b => a.bbox.top ≤ b.bbox.top)
      (l.foldl (fun acc2 e => insertEntry e acc2) acc) := by
  induction l generalizing acc with
  | nil => simpa using h
  | cons e es ih => exact ih (insertEntry e acc) (chain_insertEntry e acc h)

lemma chain_sortEntries (l : List Entry) :
    List.Chain' (fun a b => a.bbox.top ≤ b.bbox.top) (sortEntries l) :=
  chain_sortEntries_aux l [] (by simp)

lemma enumFrom_map_mk_bbox (n : ℕ) (boxes : List Rect) :
    (List.enumFrom n boxes).map (fun p => (⟨p.1, p.2⟩ : Entry).bbox) = boxes := by
  induction boxes generalizing n with
  | nil => rfl
  | cons b bs ih => simp [List.enumFrom, ih]

lemma initialEntries_map_bbox (boxes : List Rect) :
    (initialEntries boxes).map Entry.bbox = boxes := by
  rw [initialEntries, List.map_map]
  exact enumFrom_map_mk_bbox 0 boxes

/-- Claim C2 (amended): the collision pass sorts its entries ascending by the
cached bbox top coordinate, and those entries are initialised from the BOX
client rects, not from the label rects; after a detected collision, the
recomputed rectangle of labelB reflects only the horizontal shift before
further pairs are tested: the synchronous adjustment never changes the top
coordinate of a label whose transform offsets were clear, and the vertical
shift runs in a deferred zero-timeout callback only after the whole pairwise
loop has finished. -/
theorem collision_pass_order_and_recompute (dets : List Detection) (W H : ℚ)
    (l : LabelState) (c : Rect) (hty : l.ty = 0) :
    List.Chain' (fun a b => a.bbox.top ≤ b.bbox.top) (codeSortedEntries dets W H) ∧
    (∀ boxes : List Rect, (initialEntries boxes).map Entry.bbox = boxes) ∧
    (adjustLabelPosition l c).1.rect.top = l.rect.top := by
  refine ⟨chain_sortEntries _, initialEntries_map_bbox, ?_⟩
  unfold adjustLabelPosition
  simp only [LabelState.rect]
  split_ifs with h
  · simp [hty]
  · rfl

theorem collision_pass_order_and_recompute_witness :
    (⟨⟨0, 0, 20, 10⟩, 0, 0⟩ : LabelState).ty = 0 ∧
    (List.Chain' (fun a b => a.bbox.top ≤ b.bbox.top) (codeSortedEntries [] 512 512) ∧
     (∀ boxes : List Rect, (initialEntries boxes).map Entry.bbox = boxes) ∧
     (adjustLabelPosition ⟨⟨0, 0, 20, 10⟩, 0, 0⟩ ⟨30, 0, 20, 10⟩).1.rect.top =
       (⟨⟨0, 0, 20, 10⟩, 0, 0⟩ : LabelState).rect.top) :=
  ⟨rfl, collision_pass_order_and_recompute [] 512 512 ⟨⟨0, 0, 20, 10⟩, 0, 0⟩ ⟨30, 0, 20, 10⟩ rfl⟩

/-- Claim C2 fails as stated: the sort key is the BOX rect top, not the label
rect top.  Two regions, both near the top so their labels sit below their
boxes: box tops are 50 and 60, so the code keeps input order, but the label
tops in that order are 502 then 72, not ascending. -/
theorem collision_pass_sort_counterexample :
    sortedLabelTops [⟨⟨0, 50, 30, 500⟩, 60, 14⟩, ⟨⟨50, 60, 80, 70⟩, 60, 14⟩] 512 512 =
      [502, 72] ∧
    ¬ ((502 : ℚ) ≤ 72) := by
  refine ⟨?_, by norm_num⟩
  norm_num [sortedLabelTops, codeSortedEntries, initialEntries, sortEntries, insertEntry,
    positionLabelsIntelligently, labelBaseRect, vPlace, hPlace, BBoxElement.isNearTop,
    BBoxElement.isNearBottom, BBoxElement.isNearRight, boxScreenRect, mkBBoxElement,
    leftPercent, topPercent, widthPercent, heightPercent, LabelState.rect,
    List.enum, List.enumFrom]
